import Mathlib

/-!
Verification development for the omc-translations repository.

The repository is a collection of Python scripts that scrape contest
problem statements and editorials, translate them with an LLM, re-render
embedded KaTeX math, persist the results as HTML files keyed by
(language, contest, kind, id), and publish them with git.

This file gives a shallow embedding of the pieces of the scripts that the
verified properties are about:

* Python string operations are re-implemented structurally over `List Char`
  so that every definition is kernel-computable (`decide`/`rfl`).
* The file system is an association list from path strings to file
  contents; `os.path.exists` is `Option.isSome` of a lookup.
* External collaborators (HTTP client, headless browser, LLM) are passed
  in as function parameters ("oracles"); the spec declares them out of
  scope, so only the scripts' use of their results is modelled.
* Side-effect counting (network fetches, LLM calls) is explicit, so that
  "performs zero network/LLM calls" is a provable statement.
-/

/-! ## Python string primitives, re-implemented structurally -/

/-- Python `str.strip()` on a character list: drop whitespace from both ends. -/
def stripChars (l : List Char) : List Char :=
  ((l.dropWhile Char.isWhitespace).reverse.dropWhile Char.isWhitespace).reverse

/-- Python `s.strip()`. -/
def pyStrip (s : String) : String := ⟨stripChars s.data⟩

/-- Python `s.rstrip("/")`: drop trailing slashes. -/
def pyRstripSlash (s : String) : String :=
  ⟨(s.data.reverse.dropWhile (· = '/')).reverse⟩

/-- Split a character list on a separator character (Python `str.split(sep)`
semantics for a one-character separator: `"".split(sep) == [""]`). -/
def splitChar (sep : Char) : List Char → List (List Char)
  | [] => [[]]
  | c :: cs =>
    match splitChar sep cs with
    | [] => [[]]
    | h :: t => if c = sep then [] :: h :: t else (c :: h) :: t

/-- Python `s.split("/")`. -/
def pySplitSlash (s : String) : List String :=
  (splitChar '/' s.data).map (fun l => (⟨l⟩ : String))

/-- Python `s.isdigit()`: non-empty and all characters are digits. -/
def pyIsDigit (s : String) : Bool :=
  !s.data.isEmpty && s.data.all Char.isDigit

/-- Decimal value of a digit list (semantics of Python `int(s)` on an
all-digit string). -/
def natOfDigitsAux (acc : Nat) : List Char → Nat
  | [] => acc
  | c :: cs => natOfDigitsAux (acc * 10 + (c.toNat - '0'.toNat)) cs

/-- Python `int(s)` for an all-digit string `s`. -/
def pyInt (s : String) : Nat := natOfDigitsAux 0 s.data

/-- Python `needle in hay` on strings: substring containment. -/
def pyInStr (needle hay : String) : Prop := needle.data <:+: hay.data

instance (needle hay : String) : Decidable (pyInStr needle hay) :=
  inferInstanceAs (Decidable (needle.data <:+: hay.data))

/-- Boolean version of substring containment (used inside `if`s). -/
def pyInStrB (needle hay : String) : Bool := decide (pyInStr needle hay)

/-! ## File-system model

A file system is an association list from path strings to file contents;
the head of the list wins, so writing is consing. -/

/-- The file-system state: newest write first. -/
abbrev FS := List (String × String)

/-- Read a file: first binding for the path, if any (`None` = no such file). -/
def readFile (fs : FS) (p : String) : Option String :=
  (fs.find? (fun e => e.1 == p)).map Prod.snd

/-- `os.path.exists` / `Path.exists`. -/
def fileExists (fs : FS) (p : String) : Bool := (readFile fs p).isSome

/-- Write (create or overwrite) a file. -/
def writeFile (fs : FS) (p c : String) : FS := (p, c) :: fs

/-- Effect counters for one step: network fetches and LLM translation calls. -/
structure Eff where
  fetches : Nat
  llm : Nat
deriving DecidableEq, Repr

/-- The no-effect counter. -/
def Eff.zero : Eff := ⟨0, 0⟩

/-! ## scripts/fetch_and_translate.py -/

namespace FetchAndTranslate

/-- `BASE_URL` (src/scripts/fetch_and_translate.py). -/
def BASE_URL : String := "https://onlinemathcontest.com"

/-- `ROOT_LANG_DIR`: the `languages/` directory, the root of the cache tree.
We keep it as the relative path the scripts compute. -/
def ROOT_LANG_DIR : String := "languages"

/-- Path of a saved Japanese problem statement:
`languages/jp/problems/{contest_id}/{task_id}.html` (`save_jp_task`). -/
def jpTaskPath (contest_id task_id : String) : String :=
  ROOT_LANG_DIR ++ "/jp/problems/" ++ contest_id ++ "/" ++ task_id ++ ".html"

/-- Path of a translated problem statement:
`languages/{lang}/problems/{contest_id}/{task_id}.html` (`save_translated_task`). -/
def transTaskPath (lang contest_id task_id : String) : String :=
  ROOT_LANG_DIR ++ "/" ++ lang ++ "/problems/" ++ contest_id ++ "/" ++ task_id ++ ".html"

/-- URL of a task page (`save_jp_task`). -/
def taskUrl (contest_id task_id : String) : String :=
  BASE_URL ++ "/contests/" ++ contest_id ++ "/tasks/" ++ task_id

/-- Per-href body of the collection loop of `fetch_task_ids`
(src/scripts/fetch_and_translate.py lines 93-116), with the listing page
abstracted to the list of anchor `href`s found on it
(`soup.find_all("a", href=True)`).  A href containing the marker
`/contests/{contest_id}/tasks/` is `rstrip("/")`-ed and split on `/`; if
the second-to-last segment is `tasks` and the last is all digits, that last
segment is the collected task id. -/
def taskIdOfHref (contest_id href : String) : Option String :=
  if pyInStrB ("/contests/" ++ contest_id ++ "/tasks/") href then
    let parts := pySplitSlash (pyRstripSlash href)
    match parts.reverse with
    | lastP :: sndLast :: _ =>
      if parts.length ≥ 2 ∧ sndLast = "tasks" ∧ pyIsDigit lastP then some lastP
      else none
    | _ => none
  else none

/-- The collection loop of `fetch_task_ids`, followed by
`sorted(task_ids, key=lambda x: int(x))` over the deduplicated set. -/
def fetch_task_ids (contest_id : String) (hrefs : List String) : List String :=
  List.insertionSort (fun a b => pyInt a ≤ pyInt b)
    (hrefs.filterMap (taskIdOfHref contest_id)).dedup

/-- `save_jp_task` (src/scripts/fetch_and_translate.py lines 317-342).
`fetch` is the Playwright extraction collaborator
(`extract_div_innerhtml_with_playwright`): it maps the URL to the extracted
`innerHTML`, returning `""` on timeout or failure.  Returns the new file
system, the value `save_jp_task` returns (the output path, or `None` on
failure), and the effect counts of the step. -/
def save_jp_task (fetch : String → String) (fs : FS) (contest_id task_id : String) :
    FS × Option String × Eff :=
  let out_path := jpTaskPath contest_id task_id
  if fileExists fs out_path then
    (fs, some out_path, Eff.zero)
  else
    let inner_html := fetch (taskUrl contest_id task_id)
    if pyStrip inner_html = "" then
      (fs, none, ⟨1, 0⟩)
    else
      (writeFile fs out_path inner_html, some out_path, ⟨1, 0⟩)

/-- The fixed `<head>` template that `render_to_final_html` prepends before
opening the file in the browser (the KaTeX stylesheet/script loader; its
exact JS text is irrelevant to every claim, so it is kept as one opaque
constant here). -/
def headerHtml : String := "<!DOCTYPE html><html><head><!-- katex css/js + auto-render loader --></head><body>"

/-- Closing part of the wrapped document written by `render_to_final_html`. -/
def footerHtml : String := "\n</body>\n</html>"

/-- The final document `render_to_final_html` writes around the rendered
body (a head with only the KaTeX stylesheet). -/
def finalHtmlDoc (body : String) : String :=
  "<!DOCTYPE html><html><head><!-- katex css --></head><body>\n" ++ body ++ "\n</body>\n</html>"

/-- `render_to_final_html` (src/scripts/fetch_and_translate.py lines 193-253).
`renderBody` is the browser collaborator: given the wrapped document it
returns the post-JS `<body>` inner markup, or `none` if Playwright raised
(in which case the function returns early, leaving the wrapped file on
disk, exactly as the `except` branch does). -/
def render_to_final_html (renderBody : String → Option String) (fs : FS) (file_path : String) : FS :=
  match readFile fs file_path with
  | none => fs
  | some orig =>
    let wrapped := headerHtml ++ orig ++ footerHtml
    let fs1 := writeFile fs file_path wrapped
    match renderBody wrapped with
    | none => fs1
    | some body_only => writeFile fs1 file_path (finalHtmlDoc body_only)

/-- `wrap_display_math_center` (src/scripts/fetch_and_translate.py lines
256-270).  The BeautifulSoup transform (wrap each `span.katex-display` in a
centered `div`) is the HTML-parser collaborator `soupWrap`; the function
reads the file, applies it, and writes the same path back. -/
def wrap_display_math_center (soupWrap : String → String) (fs : FS) (file_path : String) : FS :=
  match readFile fs file_path with
  | none => fs
  | some html => writeFile fs file_path (soupWrap html)

/-- `save_translated_task` (src/scripts/fetch_and_translate.py lines
372-403).  `llm` is the `ask_gpt_translated_html` collaborator: the
composition of the `HtmlKatex` placeholder pass with the OpenAI call,
mapping the Japanese HTML to the returned translation; the source applies
`.strip()` to the response, so the oracle's answer is stripped here.
Returns `none` when Python would raise (the Japanese source file missing at
`open(jp_path)`). -/
def save_translated_task (llm : String → String) (renderBody : String → Option String)
    (soupWrap : String → String) (fs : FS) (contest_id task_id lang jp_path : String) :
    Option (FS × Eff) :=
  let out_path := transTaskPath lang contest_id task_id
  if fileExists fs out_path then
    some (fs, Eff.zero)
  else
    match readFile fs jp_path with
    | none => none
    | some jp_html =>
      let translated_html := pyStrip (llm jp_html)
      if pyStrip translated_html = "" then
        some (fs, ⟨0, 1⟩)
      else
        let fs1 := writeFile fs out_path translated_html
        let fs2 := render_to_final_html renderBody fs1 out_path
        let fs3 := wrap_display_math_center soupWrap fs2 out_path
        some (fs3, ⟨0, 1⟩)

end FetchAndTranslate

/-! ## scripts/update_user_editorials.py -/

namespace UpdateUserEditorials

/-- `BASE_URL`. -/
def BASE_URL : String := "https://onlinemathcontest.com"

/-- `JA_ROOT = THIS_DIR.parent / "languages" / "ja" / "contests"`. -/
def JA_ROOT : String := "languages/ja/contests"

/-- `EN_ROOT = THIS_DIR.parent / "languages" / "en" / "contests"`. -/
def EN_ROOT : String := "languages/en/contests"

/-- `EDITORIAL_SELECTORS` (src/scripts/update_user_editorials.py lines 50-60):
the candidate content selectors tried in order. -/
def EDITORIAL_SELECTORS : List String :=
  ["#editorial_content", "#editorial-content", ".editorial-content", "article",
   "main article", "main .card-body", "#content", "div.container article",
   "div.container #content"]

/-- The page state one `extract_content_with_playwright` call observes:
whether `page.goto(url)` raises, and for each selector the `innerHTML` it
yields if it appears within the bounded wait (`none` = timeout/absent). -/
structure PageOracle where
  gotoFails : Bool
  sel : String → Option String

/-- Inner loop of `extract_content_with_playwright`: try each candidate
selector; a hit whose stripped content is non-empty is returned, anything
else moves to the next candidate.  After the candidates, fall back to the
`body` element's `innerHTML` (empty string if even that fails). -/
def trySelectors (o : PageOracle) : List String → String
  | [] =>
    match o.sel "body" with
    | some b => b
    | none => ""
  | s :: rest =>
    match o.sel s with
    | some html => if pyStrip html ≠ "" then html else trySelectors o rest
    | none => trySelectors o rest

/-- `extract_content_with_playwright` (src/scripts/update_user_editorials.py
lines 151-177): `""` if the page load raises, otherwise the first candidate
selector hit, otherwise the `body` fallback. -/
def extract_content_with_playwright (o : PageOracle) : String :=
  if o.gotoFails then "" else trySelectors o EDITORIAL_SELECTORS

/-- Save path of the Japanese copy of one user editorial, as computed for
the loop item `(task_id, user_id)` (src/scripts/update_user_editorials.py
lines 272-277: `ja_dir / f"{user_id}.html"`).  The code's own comment says
the save path is `task_id/user_id.html` "to prevent collisions", but the
path written does not depend on `task_id`. -/
def ja_save_path (contest : String) (task_id user_id : Nat) : String :=
  JA_ROOT ++ "/" ++ contest ++ "/user_editorial/" ++ toString user_id ++ ".html"

/-- Save path of the English translation for the loop item
`(task_id, user_id)` (`en_dir / f"{user_id}.html"`). -/
def en_save_path (contest : String) (task_id user_id : Nat) : String :=
  EN_ROOT ++ "/" ++ contest ++ "/user_editorial/" ++ toString user_id ++ ".html"

/-- `render_html_with_playwright` (src/scripts/update_user_editorials.py
lines 212-242): wrap the file in the KaTeX loader document, render in the
browser (`renderBody` returns the rendered `<body>` inner markup, `none` if
Playwright raises mid-way, leaving the wrapped file on disk), and write the
final document back to the same path. -/
def render_html_with_playwright (renderBody : String → Option String) (fs : FS)
    (file_path : String) : FS :=
  match readFile fs file_path with
  | none => fs
  | some content =>
    let wrapped := FetchAndTranslate.headerHtml ++ content ++ "\n</body></html>"
    let fs1 := writeFile fs file_path wrapped
    match renderBody wrapped with
    | none => fs1
    | some body => writeFile fs1 file_path (FetchAndTranslate.finalHtmlDoc body)

/-- One iteration of the per-item loop of `save_user_editorials_for_contest`
(src/scripts/update_user_editorials.py lines 268-319, `dry_run=False`):

* if the Japanese file is absent, fetch the page content (`fetch` stands
  for the `extract_content_with_playwright` call; one network fetch);
  persist only a non-blank result, otherwise `continue`;
* if the English file is absent, translate the (now present) Japanese file
  (`llm` stands for `translate_html_for_lang`, whose result the source
  `.strip()`s inside `ask_gpt`; one LLM call); persist only a non-blank
  result; then re-render KaTeX in place (failures of the render are caught
  and skipped).

The `git_add_and_push` batching touches no cache file, so it does not
appear in the file-system state. -/
def process_user_editorial (fetch : String → String) (llm : String → String)
    (renderBody : String → Option String) (fs : FS) (contest : String)
    (task_id user_id : Nat) : FS × Eff :=
  let url := BASE_URL ++ "/contests/" ++ contest ++ "/editorial/" ++
    toString task_id ++ "/" ++ toString user_id
  let ja_path := ja_save_path contest task_id user_id
  let en_path := en_save_path contest task_id user_id
  let jaStep : Option (FS × Eff) :=
    if fileExists fs ja_path then
      some (fs, Eff.zero)
    else
      let html := fetch url
      if pyStrip html ≠ "" then
        some (writeFile fs ja_path html, ⟨1, 0⟩)
      else
        none
  match jaStep with
  | none => (fs, ⟨1, 0⟩)
  | some (fs1, eff1) =>
    if fileExists fs1 en_path then
      (fs1, eff1)
    else
      match readFile fs1 ja_path with
      | none => (fs1, eff1)
      | some jp_html =>
        let translated := pyStrip (llm jp_html)
        if pyStrip translated = "" then
          (fs1, ⟨eff1.fetches, eff1.llm + 1⟩)
        else
          let fs2 := writeFile fs1 en_path translated
          let fs3 := render_html_with_playwright renderBody fs2 en_path
          (fs3, ⟨eff1.fetches, eff1.llm + 1⟩)

/-- `git_add_and_push` (src/scripts/update_user_editorials.py lines
244-253), over an oracle `rc` giving each git command's exit code.  Every
step except the `git diff --cached --quiet` probe runs with `check=True`
and is NOT wrapped in any `try`: a non-zero exit raises
`CalledProcessError`, modelled as `Except.error` carrying the trace of
commands run so far.  `Except.ok` carries the full trace. -/
def git_add_and_push (rc : List String → Int) (message : String) :
    Except (List (List String)) (List (List String)) :=
  let step (trace : List (List String)) (cmd : List String) :
      Except (List (List String)) (List (List String)) :=
    if rc cmd = 0 then .ok (trace ++ [cmd]) else .error (trace ++ [cmd])
  (step [] ["git", "config", "--local", "user.name", "github-actions[bot]"]).bind fun t1 =>
  (step t1 ["git", "config", "--local", "user.email", "github-actions[bot]@users.noreply.github.com"]).bind fun t2 =>
  (step t2 ["git", "add", "-A"]).bind fun t3 =>
  let diffCmd := ["git", "diff", "--cached", "--quiet"]
  let t4 := t3 ++ [diffCmd]
  if rc diffCmd = 0 then .ok t4
  else
    (step t4 ["git", "commit", "-m", message]).bind fun t5 =>
    (step t5 ["git", "pull", "--rebase"]).bind fun t6 =>
    step t6 ["git", "push", "origin", "HEAD:main"]

end UpdateUserEditorials

/-! ## languages/code.py -/

namespace CodePy

/-- `BASE_URL`. -/
def BASE_URL : String := "https://onlinemathcontest.com"

/-- `JA_ROOT = LANG_ROOT / "ja" / "contests"`. -/
def JA_ROOT : String := "languages/ja/contests"

/-- `EN_ROOT = LANG_ROOT / "en" / "contests"`. -/
def EN_ROOT : String := "languages/en/contests"

/-- Japanese save path for the anchor parsed into `(task_id, user_id)`
(src/languages/code.py lines 120-121: `ja_dir / f"{user_id}.html"` — the
task id is not part of the path). -/
def ja_file (contest : String) (task_id user_id : String) : String :=
  JA_ROOT ++ "/" ++ contest ++ "/user_editorial/" ++ user_id ++ ".html"

/-- English save path (src/languages/code.py lines 122-123). -/
def en_file (contest : String) (task_id user_id : String) : String :=
  EN_ROOT ++ "/" ++ contest ++ "/user_editorial/" ++ user_id ++ ".html"

/-- The user-editorial link listing of `main` (src/languages/code.py lines
105-117), with the listing container abstracted to the list of its anchors
as `(link text, href)` pairs.  Anchors whose text contains the
official-editorial marker `公式解説` are skipped; the rest must split (after
`rstrip("/")`) into at least 6 `/`-separated parts with `editorial` third
from last; the last two parts are the `(task_id, user_id)` pair. -/
def list_user_editorial_links (anchors : List (String × String)) :
    List (String × String) :=
  anchors.filterMap (fun a =>
    if pyInStrB "公式解説" a.1 then none
    else
      let parts := pySplitSlash (pyRstripSlash a.2)
      match parts.reverse with
      | user_id :: task_id :: third :: _ =>
        if parts.length ≥ 6 ∧ third = "editorial" then some (task_id, user_id)
        else none
      | _ => none)

/-- The English-translation step of `main` for one anchor (src/languages/
code.py lines 146-159): if the English file is absent, read the Japanese
file, call `translate_html` (the `llm` collaborator; its result is returned
WITHOUT any emptiness check) and write it unconditionally.  A missing
Japanese file raises inside the `try`, is caught, and the loop continues
(state unchanged). -/
def save_en_step (llm : String → String) (fs : FS) (contest task_id user_id : String) :
    FS × Eff :=
  let enPath := en_file contest task_id user_id
  if fileExists fs enPath then
    (fs, Eff.zero)
  else
    match readFile fs (ja_file contest task_id user_id) with
    | none => (fs, Eff.zero)
    | some jp_html => (writeFile fs enPath (llm jp_html), ⟨0, 1⟩)

end CodePy

/-! ## scripts/update_user_editorial.py -/

namespace UpdateUserEditorial

/-- Parse of one href by the user-editorial regex of `main`
(src/scripts/update_user_editorial.py line 187:
`^/contests/{contest}/editorial/(\d+)/(\d+)$` applied to the URL path):
the two digit groups, or `none` when the path does not match. -/
def ue_path_match (contest : String) (path : String) : Option (String × String) :=
  let pre := "/contests/" ++ contest ++ "/editorial/"
  if pre.data.isPrefixOf path.data then
    let rest : String := ⟨path.data.drop pre.data.length⟩
    match pySplitSlash rest with
    | [t, u] => if pyIsDigit t ∧ pyIsDigit u then some (t, u) else none
    | _ => none
  else none

/-- The anchor filter of `main` (src/scripts/update_user_editorial.py lines
178-190): anchors whose text contains `公式解説` are skipped, the rest are
kept when their URL path matches the user-editorial regex. -/
def list_user_editorial_links (contest : String) (anchors : List (String × String)) :
    List (String × String) :=
  anchors.filterMap (fun a =>
    if pyInStrB "公式解説" a.1 then none
    else ue_path_match contest a.2)

end UpdateUserEditorial

/-! ## scripts/fetch_editorial.py -/

namespace FetchEditorial

/-- `BASE_URL`. -/
def BASE_URL : String := "https://onlinemathcontest.com"

/-- `OUTPUT_ROOT = Path(__file__).parents[1] / "languages"`. -/
def OUTPUT_ROOT : String := "languages"

/-- Editorial file path `OUTPUT_ROOT/{lang}/contests/{contest_id}/editorial/{task_id}.html`
(used by `save_jp_editorial`, `save_translated_editorial`,
`change_editorial_display` and `check_existence_editorial`). -/
def editorialPath (lang contest_id task_id : String) : String :=
  OUTPUT_ROOT ++ "/" ++ lang ++ "/contests/" ++ contest_id ++ "/editorial/" ++ task_id ++ ".html"

/-- `fetch_task_ids` (src/scripts/fetch_editorial.py lines 76-97): identical
to the fetch_and_translate version except each matching href is
`strip()`-ed before `rstrip("/")`. -/
def taskIdOfHref (contest_id href : String) : Option String :=
  if pyInStrB ("/contests/" ++ contest_id ++ "/tasks/") href then
    let parts := pySplitSlash (pyRstripSlash (pyStrip href))
    match parts.reverse with
    | lastP :: sndLast :: _ =>
      if parts.length ≥ 2 ∧ sndLast = "tasks" ∧ pyIsDigit lastP then some lastP
      else none
    | _ => none
  else none

/-- The collection loop over the hrefs, then
`sorted(ids, key=lambda x: int(x))` over the deduplicated set. -/
def fetch_task_ids (contest_id : String) (hrefs : List String) : List String :=
  List.insertionSort (fun a b => pyInt a ≤ pyInt b)
    (hrefs.filterMap (taskIdOfHref contest_id)).dedup

/-- `render_html_with_playwright` (src/scripts/fetch_editorial.py lines
195-247): wrap, render in the browser, write the final document back to the
same path.  This version has no internal `try`, but its caller is what the
claims quantify over, and the browser collaborator is modelled as total
(`renderBody`). -/
def render_html_with_playwright (renderBody : String → String) (fs : FS)
    (file_path : String) : FS :=
  match readFile fs file_path with
  | none => fs
  | some content =>
    let wrapped := FetchAndTranslate.headerHtml ++ content ++ "\n</body></html>"
    let fs1 := writeFile fs file_path wrapped
    writeFile fs1 file_path (FetchAndTranslate.finalHtmlDoc (renderBody wrapped))

/-- `change_editorial_display` (src/scripts/fetch_editorial.py lines
250-267): re-read the editorial file and re-write it with every
`span.katex-display` wrapped in a centered `div` (the BeautifulSoup
transform is the `soupWrap` collaborator).  A missing file only logs. -/
def change_editorial_display (soupWrap : String → String) (fs : FS)
    (contest_id task_id lang : String) : FS :=
  let file_path := editorialPath lang contest_id task_id
  match readFile fs file_path with
  | none => fs
  | some html => writeFile fs file_path (soupWrap html)

/-- `save_translated_editorial` (src/scripts/fetch_editorial.py lines
294-324).  `llm` is `translate_html_for_lang` (the `HtmlKatex` pass plus
`ask_gpt`, which strips the API answer).  `none` models the exception a
missing Japanese file raises at `read_text`. -/
def save_translated_editorial (llm : String → String) (renderBody : String → String)
    (soupWrap : String → String) (fs : FS) (contest_id task_id lang jp_filepath : String) :
    Option (FS × Eff) :=
  let out_path := editorialPath lang contest_id task_id
  if fileExists fs out_path then
    some (fs, Eff.zero)
  else
    match readFile fs jp_filepath with
    | none => none
    | some jp_html =>
      let translated_html := pyStrip (llm jp_html)
      if pyStrip translated_html = "" then
        some (fs, ⟨0, 1⟩)
      else
        let fs1 := writeFile fs out_path translated_html
        let fs2 := render_html_with_playwright renderBody fs1 out_path
        let fs3 := change_editorial_display soupWrap fs2 contest_id task_id lang
        some (fs3, ⟨0, 1⟩)

end FetchEditorial

/-! ## scripts/orchestrate_daily.py -/

namespace OrchestrateDaily

/-- A JSON value as far as the orchestrator's duration extraction needs it. -/
inductive JVal where
  | num (n : Int)
  | str (s : String)
deriving DecidableEq, Repr

/-- A JSON object: field list. -/
abbrev JObj := List (String × JVal)

/-- Python `j.get("duration_min", 60)` followed by `int(...)` (src/scripts/
orchestrate_daily.py line 95): a number is taken as-is, a digit string is
parsed, anything else raises (handled by the caller's `except` → 60). -/
def intOfJVal : Option JVal → Option Int
  | none => some 60
  | some (.num n) => some n
  | some (.str s) => if pyIsDigit s then some (pyInt s) else none

/-- The orchestrator's duration extraction (src/scripts/orchestrate_daily.py
lines 92-97).  The `json.loads` collaborator result is `parsed`: `none`
when the last stdout line is not valid JSON (or stdout is empty, making the
line `"{}"` parse to the object with no fields — pass `some []` for that).
Every failure path, including a non-numeric `duration_min`, falls into the
`except` branch and yields 60. -/
def duration_min_of (parsed : Option JObj) : Int :=
  match parsed with
  | none => 60
  | some j =>
    match intOfJVal ((j.find? (fun e => e.1 == "duration_min")).map Prod.snd) with
    | none => 60
    | some n => n

/-- `git_sync` body (src/scripts/orchestrate_daily.py lines 31-53), before
the surrounding `try`: configure the bot identity, stage everything, probe
the staged diff (`git diff --cached --quiet`, NOT `check=True`), and if the
probe reports a difference, commit, pull with rebase, and push.  A failing
checked step raises `CalledProcessError` (`Except.error`, carrying the
trace of commands run so far). -/
def git_sync_body (rc : List String → Int) (message : String) :
    Except (List (List String)) (List (List String)) :=
  let step (trace : List (List String)) (cmd : List String) :
      Except (List (List String)) (List (List String)) :=
    if rc cmd = 0 then .ok (trace ++ [cmd]) else .error (trace ++ [cmd])
  (step [] ["git", "config", "user.name", "github-actions[bot]"]).bind fun t1 =>
  (step t1 ["git", "config", "user.email", "github-actions[bot]@users.noreply.github.com"]).bind fun t2 =>
  (step t2 ["git", "add", "-A"]).bind fun t3 =>
  let diffCmd := ["git", "diff", "--cached", "--quiet"]
  let t4 := t3 ++ [diffCmd]
  if rc diffCmd = 0 then .ok t4
  else
    (step t4 ["git", "commit", "-m", message]).bind fun t5 =>
    (step t5 ["git", "pull", "--rebase"]).bind fun t6 =>
    step t6 ["git", "push"]

/-- `git_sync` (src/scripts/orchestrate_daily.py lines 31-53): the body runs
inside `try ... except subprocess.CalledProcessError`, which logs a warning
and returns normally, so the function always yields the trace of commands
it managed to run. -/
def git_sync (rc : List String → Int) (message : String) : List (List String) :=
  match git_sync_body rc message with
  | .ok t => t
  | .error t => t

end OrchestrateDaily

/-! ## The math normalizer (`HtmlKatex` / `html_to_tex_placeholders`)

`HtmlKatex` (src/scripts/fetch_and_translate.py lines 145-157) and
`html_to_tex_placeholders` (src/languages/code.py lines 55-65) operate on
the BeautifulSoup parse tree of the fragment, so this part of the model
works on HTML node trees directly. -/

namespace MathNormalizer

/-- An HTML node as the scripts see it through BeautifulSoup: a text node
or an element with a tag, attributes and children. -/
inductive Node where
  | text (s : String)
  | elem (tag : String) (attrs : List (String × String)) (children : List Node)
deriving Repr

/-- Attribute lookup (first binding wins, as in a parsed attribute list). -/
def getAttr (attrs : List (String × String)) (name : String) : Option String :=
  (attrs.find? (fun e => e.1 == name)).map Prod.snd

/-- The whitespace-separated tokens of the `class` attribute (BeautifulSoup
treats `class` as multi-valued, so `class_="katex"` matches any element
whose class list contains the token `katex`). -/
def classTokens (attrs : List (String × String)) : List String :=
  (splitChar ' ' ((getAttr attrs "class").getD "").data).map (fun l => (⟨l⟩ : String))

/-- Does the element's class list contain the given token? -/
def hasClassTok (attrs : List (String × String)) (c : String) : Bool :=
  classTokens attrs |>.contains c

mutual
/-- `node.text` in BeautifulSoup: concatenation of all descendant strings. -/
def getTextN : Node → String
  | .text s => s
  | .elem _ _ cs => getTextL cs
/-- `getTextN` over a child list. -/
def getTextL : List Node → String
  | [] => ""
  | n :: ns => getTextN n ++ getTextL ns
end

/-- Is this element the TeX-source node the scripts look for
(`find("annotation", {"encoding": "application/x-tex"})`)? -/
def isTexSource (tag : String) (attrs : List (String × String)) : Bool :=
  tag == "annotation" && getAttr attrs "encoding" == some "application/x-tex"

mutual
/-- First TeX-source descendant-or-self of a node, pre-order, and its text. -/
def findTexN : Node → Option String
  | .text _ => none
  | .elem tag attrs cs => if isTexSource tag attrs then some (getTextL cs) else findTexL cs
/-- First TeX-source node under any member of the list, pre-order. -/
def findTexL : List Node → Option String
  | [] => none
  | n :: ns =>
    match findTexN n with
    | some t => some t
    | none => findTexL ns
end

mutual
/-- The forward math transform on one node: an element whose class list
contains `katex` and that has a TeX-source descendant is replaced with the
literal text `$<source>$` (the fetch_and_translate version `strip()`s the
source, `stripSrc = true`; the code.py version does not, `stripSrc =
false`); every other element keeps its tag and attributes and the
transform recurses into the children. -/
def replaceKatexN (stripSrc : Bool) : Node → Node
  | .text s => .text s
  | .elem tag attrs cs =>
    match findTexL cs with
    | some tex =>
      if hasClassTok attrs "katex" then
        .text ("$" ++ (if stripSrc then pyStrip tex else tex) ++ "$")
      else .elem tag attrs (replaceKatexL stripSrc cs)
    | none => .elem tag attrs (replaceKatexL stripSrc cs)
/-- The forward math transform on a fragment (list of sibling nodes). -/
def replaceKatexL (stripSrc : Bool) : List Node → List Node
  | [] => []
  | n :: ns => replaceKatexN stripSrc n :: replaceKatexL stripSrc ns
end

/-- `HtmlKatex` (src/scripts/fetch_and_translate.py lines 145-157) as the
tree transform it performs between `BeautifulSoup(html)` and `str(soup)`. -/
def HtmlKatex (fragment : List Node) : List Node := replaceKatexL true fragment

/-- `html_to_tex_placeholders` (src/languages/code.py lines 55-65): same
transform without the `strip()` on the TeX source. -/
def html_to_tex_placeholders (fragment : List Node) : List Node :=
  replaceKatexL false fragment

/-- HTML-escape of text content as `str(soup)` emits it. -/
def escapeHtmlChar (c : Char) : String :=
  if c = '&' then "&amp;" else if c = '<' then "&lt;"
  else if c = '>' then "&gt;" else String.singleton c

/-- HTML-escape a string. -/
def escapeHtml (s : String) : String := String.join (s.data.map escapeHtmlChar)

/-- Serialization of one attribute. -/
def serializeAttr (a : String × String) : String :=
  " " ++ a.1 ++ "=\"" ++ escapeHtml a.2 ++ "\""

mutual
/-- `str(soup)` for one node. -/
def serializeN : Node → String
  | .text s => escapeHtml s
  | .elem tag attrs cs =>
    "<" ++ tag ++ String.join (attrs.map serializeAttr) ++ ">" ++ serializeL cs ++ "</" ++ tag ++ ">"
/-- `str(soup)` for a fragment. -/
def serializeL : List Node → String
  | [] => ""
  | n :: ns => serializeN n ++ serializeL ns
end

mutual
/-- No descendant-or-self of this node is replaceable (no `katex`-classed
element with a TeX source): on such nodes the transform is the identity. -/
def noKatexN : Node → Bool
  | .text _ => true
  | .elem _ attrs cs =>
    !(hasClassTok attrs "katex" && (findTexL cs).isSome) && noKatexL cs
/-- `noKatexN` over a fragment. -/
def noKatexL : List Node → Bool
  | [] => true
  | n :: ns => noKatexN n && noKatexL ns
end

mutual
/-- Does the fragment contain a rendered math node (class token `katex`)
whose TeX source content equals `t`? -/
def containsTexN (t : String) : Node → Bool
  | .text _ => false
  | .elem _ attrs cs =>
    (hasClassTok attrs "katex" && (findTexL cs == some t)) || containsTexL t cs
/-- `containsTexN` over a fragment. -/
def containsTexL (t : String) : List Node → Bool
  | [] => false
  | n :: ns => containsTexN t n || containsTexL t ns
end

/-- Modelled from the spec: the rendered-math node that the KaTeX
auto-render collaborator produces for the TeX source `tex` — a `katex`
span whose embedded source-notation element carries `tex` verbatim
(§4.3: "render ... must reproduce math ... whose annotation content
equals" the source).  The browser/KaTeX renderer itself is an external
collaborator and is not part of the repository. -/
def katexRendered (tex : String) : Node :=
  .elem "span" [("class", "katex")]
    [.elem "annotation" [("encoding", "application/x-tex")] [.text tex]]

/-- Modelled from the spec: the inverse transform `render` (§4.3, spec.md)
over the placeholder text — the auto-renderer turns every `$...$`-delimited
segment into a rendered math node and leaves the segments between
delimiters as they are.  Segments alternate: even positions of the
`$`-split are plain, odd positions are math. -/
def renderSegs : Bool → List (List Char) → List Node
  | _, [] => []
  | false, seg :: rest => .text ⟨seg⟩ :: renderSegs true rest
  | true, seg :: rest => katexRendered ⟨seg⟩ :: renderSegs false rest

/-- Modelled from the spec: `render` applied to a placeholder fragment
string (§4.3). -/
def render (s : String) : List Node := renderSegs false (splitChar '$' s.data)

end MathNormalizer

/-! ## The `--contest-json` mode (modelled from the spec)

The src copy of scripts/fetch_and_translate.py parses no command-line
arguments, yet its two in-repo callers pass flags to it
(`orchestrate_daily.py` runs `fetch_and_translate.py --contest-json`,
`update_past3.py` runs `fetch_and_translate.py --contest {c} --no-login`),
so the CLI-handling part of the pipeline script is code of the repository
that is not under src/.  It is modelled here from the spec (spec.md §6 and
Scenario C). -/

namespace FetchAndTranslate

/-- Modelled from the spec: parse of the contest page's duration text
(Scenario C: duration text `"90分"` parses to 90; anything that is not
digits followed by `分` is unparseable, `none`). -/
def durationMinOfText (txt : String) : Option Nat :=
  let ds := txt.data.takeWhile Char.isDigit
  if ds ≠ [] ∧ txt.data.drop ds.length = ['分'] then some (natOfDigitsAux 0 ds)
  else none

/-- Modelled from the spec: the JSON object `--contest-json` emits —
`{"contest_id": str, "duration_min": int}` — with the duration defaulting
to 60 when the page's duration text is missing or unparseable (spec.md §4.7:
"a fetched contest-duration value, defaulting to 60 minutes if
unparseable"). -/
def contestJsonOutput (contest_id : String) (durText : Option String) :
    OrchestrateDaily.JObj :=
  [("contest_id", .str contest_id),
   ("duration_min", .num (((durText.bind durationMinOfText).getD 60 : Nat)))]

/-- Modelled from the spec: invoking the pipeline script with
`--contest-json` emits the JSON object on standard output "instead of
performing fetch/translate side effects" (spec.md §6): the file system is
untouched and no fetch or LLM call happens. -/
def mainContestJson (fs : FS) (contest_id : String) (durText : Option String) :
    FS × Eff × OrchestrateDaily.JObj :=
  (fs, Eff.zero, contestJsonOutput contest_id durText)

end FetchAndTranslate

/-! ## `extract_div_innerhtml_with_playwright` (fetch_and_translate.py) -/

namespace FetchAndTranslate

/-- The page state one `extract_div_innerhtml_with_playwright` call
observes: whether the call raises outside the selector wait (page launch /
`goto` / evaluation failure — the function's outer `except` turns any such
exception into `""`), and the `innerHTML` the target selector yields if it
appears within the bounded wait (`none` = `wait_for_selector` timeout). -/
structure PWOracle where
  fails : Bool
  sel : String → Option String

/-- `extract_div_innerhtml_with_playwright` (src/scripts/fetch_and_translate.py
lines 119-142): `""` on any exception, `""` on selector timeout, otherwise
the `innerHTML` of `#{div_id}` (with `None` coerced to `""` by `or ""`). -/
def extract_div_innerhtml_with_playwright (o : PWOracle) (div_id : String) : String :=
  if o.fails then ""
  else
    match o.sel ("#" ++ div_id) with
    | none => ""
    | some inner_html => inner_html

end FetchAndTranslate

/-! ## Claim theorems -/

section Claims

theorem readFile_writeFile_ne (fs : FS) (p c q : String) (h : q ≠ p) :
    readFile (writeFile fs p c) q = readFile fs q := by
  have hb : (p == q) = false := beq_eq_false_iff_ne.mpr (Ne.symm h)
  simp [readFile, writeFile, List.find?, hb]

theorem readFile_writeFile_self (fs : FS) (p c : String) :
    readFile (writeFile fs p c) p = some c := by
  simp [readFile, writeFile, List.find?]

/-- Helper: membership in a task-id listing result. -/
theorem mem_fetch_task_ids_ft (cid : String) (hrefs : List String) (s : String) :
    s ∈ FetchAndTranslate.fetch_task_ids cid hrefs ↔
      ∃ href ∈ hrefs, FetchAndTranslate.taskIdOfHref cid href = some s := by
  simp [FetchAndTranslate.fetch_task_ids, List.mem_insertionSort, List.mem_dedup,
    List.mem_filterMap]

/-- Helper: membership in the fetch_editorial task-id listing result. -/
theorem mem_fetch_task_ids_fe (cid : String) (hrefs : List String) (s : String) :
    s ∈ FetchEditorial.fetch_task_ids cid hrefs ↔
      ∃ href ∈ hrefs, FetchEditorial.taskIdOfHref cid href = some s := by
  simp [FetchEditorial.fetch_task_ids, List.mem_insertionSort, List.mem_dedup,
    List.mem_filterMap]

/-- Helper: a collected task id is all digits and sits in `tasks` position. -/
theorem taskIdOfHref_sound_ft (cid href s : String)
    (h : FetchAndTranslate.taskIdOfHref cid href = some s) :
    pyIsDigit s = true ∧
      (pySplitSlash (pyRstripSlash href)).reverse.head? = some s ∧
      (pySplitSlash (pyRstripSlash href)).reverse.tail.head? = some "tasks" := by
  unfold FetchAndTranslate.taskIdOfHref at h
  split at h
  · dsimp only at h
    split at h
    next lastP sndLast rest heq =>
      split at h
      next hcond =>
        obtain ⟨hlen, hsnd, hdig⟩ := hcond
        cases h
        rw [heq]
        exact ⟨hdig, rfl, by simp [hsnd]⟩
      next => cases h
    next => cases h
  · cases h

theorem taskIdOfHref_sound_fe (cid href s : String)
    (h : FetchEditorial.taskIdOfHref cid href = some s) :
    pyIsDigit s = true ∧
      (pySplitSlash (pyRstripSlash (pyStrip href))).reverse.head? = some s ∧
      (pySplitSlash (pyRstripSlash (pyStrip href))).reverse.tail.head? = some "tasks" := by
  unfold FetchEditorial.taskIdOfHref at h
  split at h
  · dsimp only at h
    split at h
    next lastP sndLast rest heq =>
      split at h
      next hcond =>
        obtain ⟨hlen, hsnd, hdig⟩ := hcond
        cases h
        rw [heq]
        exact ⟨hdig, rfl, by simp [hsnd]⟩
      next => cases h
    next => cases h
  · cases h

/-- C9: For every contest listing page, the task-id listing operation
returns the task ids deduplicated and sorted ascending by numeric value: a
page with links `/contests/abc001/tasks/101` and `/contests/abc001/tasks/102`
yields exactly `["101","102"]` in that order, and only href path segments
that are all-digit strings in tasks position are included (both in
`fetch_and_translate.fetch_task_ids` and `fetch_editorial.fetch_task_ids`). -/
theorem C9_fetch_task_ids_sorted_dedup :
    (FetchAndTranslate.fetch_task_ids "abc001"
        ["/contests/abc001/tasks/101", "/contests/abc001/tasks/102"] = ["101", "102"] ∧
      FetchEditorial.fetch_task_ids "abc001"
        ["/contests/abc001/tasks/101", "/contests/abc001/tasks/102"] = ["101", "102"]) ∧
    (∀ cid hrefs, (FetchAndTranslate.fetch_task_ids cid hrefs).Nodup ∧
      List.Sorted (fun a b => pyInt a ≤ pyInt b) (FetchAndTranslate.fetch_task_ids cid hrefs) ∧
      (FetchEditorial.fetch_task_ids cid hrefs).Nodup ∧
      List.Sorted (fun a b => pyInt a ≤ pyInt b) (FetchEditorial.fetch_task_ids cid hrefs)) ∧
    (∀ cid hrefs s, s ∈ FetchAndTranslate.fetch_task_ids cid hrefs →
      pyIsDigit s = true ∧ ∃ href ∈ hrefs,
        (pySplitSlash (pyRstripSlash href)).reverse.head? = some s ∧
        (pySplitSlash (pyRstripSlash href)).reverse.tail.head? = some "tasks") := by
  refine ⟨⟨by decide, by decide⟩, ?_, ?_⟩
  · intro cid hrefs
    haveI htot : IsTotal String (fun a b => pyInt a ≤ pyInt b) := ⟨fun a b => Nat.le_total _ _⟩
    haveI htr : IsTrans String (fun a b => pyInt a ≤ pyInt b) := ⟨fun a b c => Nat.le_trans⟩
    refine ⟨?_, List.sorted_insertionSort _ _, ?_, List.sorted_insertionSort _ _⟩
    · exact ((List.perm_insertionSort _ _).nodup_iff).mpr (List.nodup_dedup _)
    · exact ((List.perm_insertionSort _ _).nodup_iff).mpr (List.nodup_dedup _)
  · intro cid hrefs s hs
    obtain ⟨href, hmem, hsome⟩ := (mem_fetch_task_ids_ft cid hrefs s).mp hs
    obtain ⟨hdig, hhead, htasks⟩ := taskIdOfHref_sound_ft cid href s hsome
    exact ⟨hdig, href, hmem, hhead, htasks⟩

/-- Witness for C9: the general conjuncts applied at the concrete two-link
listing page. -/
theorem C9_witness :
    pyIsDigit "101" = true ∧
      (FetchAndTranslate.fetch_task_ids "abc001"
        ["/contests/abc001/tasks/101", "/contests/abc001/tasks/102"]).Nodup :=
  ⟨(C9_fetch_task_ids_sorted_dedup.2.2 "abc001"
      ["/contests/abc001/tasks/101", "/contests/abc001/tasks/102"] "101" (by decide)).1,
    (C9_fetch_task_ids_sorted_dedup.2.1 "abc001"
      ["/contests/abc001/tasks/101", "/contests/abc001/tasks/102"]).1⟩

end Claims

/-- C1: For every content item, if the output file for (language, contest,
kind, id) already exists when the fetch-or-skip step runs, the step
performs no network fetch and no LLM translation call and leaves the file
system (hence the existing file's content) unchanged; running the step
twice with the cache populated equals running it once. -/
theorem C1_fetch_or_skip_idempotent :
    (∀ (fetch : String → String) (fs : FS) (cid tid : String),
      fileExists fs (FetchAndTranslate.jpTaskPath cid tid) = true →
      FetchAndTranslate.save_jp_task fetch fs cid tid =
        (fs, some (FetchAndTranslate.jpTaskPath cid tid), Eff.zero)) ∧
    (∀ (llm : String → String) (renderBody : String → Option String)
      (soupWrap : String → String) (fs : FS) (cid tid lang jp : String),
      fileExists fs (FetchAndTranslate.transTaskPath lang cid tid) = true →
      FetchAndTranslate.save_translated_task llm renderBody soupWrap fs cid tid lang jp =
        some (fs, Eff.zero)) ∧
    (∀ (fetch llm : String → String) (renderBody : String → Option String)
      (fs : FS) (contest : String) (t u : Nat),
      fileExists fs (UpdateUserEditorials.ja_save_path contest t u) = true →
      fileExists fs (UpdateUserEditorials.en_save_path contest t u) = true →
      UpdateUserEditorials.process_user_editorial fetch llm renderBody fs contest t u =
        (fs, Eff.zero)) ∧
    (∀ (fetch llm : String → String) (renderBody : String → Option String)
      (fs : FS) (contest : String) (t u : Nat),
      fileExists fs (UpdateUserEditorials.ja_save_path contest t u) = true →
      fileExists fs (UpdateUserEditorials.en_save_path contest t u) = true →
      UpdateUserEditorials.process_user_editorial fetch llm renderBody
          (UpdateUserEditorials.process_user_editorial fetch llm renderBody fs contest t u).1
          contest t u =
        UpdateUserEditorials.process_user_editorial fetch llm renderBody fs contest t u) := by
  refine ⟨?_, ?_, ?_, ?_⟩
  · intro fetch fs cid tid h
    simp [FetchAndTranslate.save_jp_task, h]
  · intro llm renderBody soupWrap fs cid tid lang jp h
    simp [FetchAndTranslate.save_translated_task, h]
  · intro fetch llm renderBody fs contest t u hja hen
    simp [UpdateUserEditorials.process_user_editorial, hja, hen, Eff.zero]
  · intro fetch llm renderBody fs contest t u hja hen
    have h1 : UpdateUserEditorials.process_user_editorial fetch llm renderBody fs contest t u =
        (fs, Eff.zero) := by
      simp [UpdateUserEditorials.process_user_editorial, hja, hen, Eff.zero]
    rw [h1]
    exact h1

/-- Witness for C1: the populated two-file cache for contest `omc001`,
task 100, user 42; the step is the identity and performs zero calls. -/
theorem C1_witness :
    UpdateUserEditorials.process_user_editorial (fun _ => "fetched") (fun _ => "translated")
        (fun _ => none)
        [(UpdateUserEditorials.ja_save_path "omc001" 100 42, "<p>ja</p>"),
         (UpdateUserEditorials.en_save_path "omc001" 100 42, "<p>en</p>")] "omc001" 100 42 =
      ([(UpdateUserEditorials.ja_save_path "omc001" 100 42, "<p>ja</p>"),
        (UpdateUserEditorials.en_save_path "omc001" 100 42, "<p>en</p>")], Eff.zero) :=
  C1_fetch_or_skip_idempotent.2.2.1 (fun _ => "fetched") (fun _ => "translated") (fun _ => none)
    [(UpdateUserEditorials.ja_save_path "omc001" 100 42, "<p>ja</p>"),
     (UpdateUserEditorials.en_save_path "omc001" 100 42, "<p>en</p>")] "omc001" 100 42
    (by decide) (by decide)

/-- C2 counterexample: in `code.py`'s `main` (src/languages/code.py lines
146-159) the translator's result is written unconditionally — with a
translator returning the empty string, the English cache entry IS created
(with empty content), and the subsequent run SKIPS the item (zero LLM
calls) instead of re-attempting.  This refutes "for every translation step
in every script ... no output file is written and no cache entry is
created". -/
theorem C2_counterexample :
    readFile (CodePy.save_en_step (fun _ => "")
        [(CodePy.ja_file "omc001" "101" "42", "<p>ja body</p>")] "omc001" "101" "42").1
      (CodePy.en_file "omc001" "101" "42") = some "" ∧
    (CodePy.save_en_step (fun _ => "")
        (CodePy.save_en_step (fun _ => "")
          [(CodePy.ja_file "omc001" "101" "42", "<p>ja body</p>")] "omc001" "101" "42").1
        "omc001" "101" "42").2.llm = 0 := by
  constructor
  · rfl
  · rfl

/-- C2 (amended): in the pipeline scripts `fetch_and_translate.py`,
`fetch_editorial.py` and `update_user_editorials.py`, a translation that is
empty or whitespace-only after `strip()` is not persisted — the file system
is unchanged, so a subsequent run re-attempts the translation (performing
an LLM call again) instead of skipping; `code.py`'s `main`, however, writes
the translator's result unconditionally (see the counterexample). -/
theorem C2_empty_translation_not_persisted :
    (∀ (llm : String → String) (renderBody : String → Option String)
      (soupWrap : String → String) (fs : FS) (cid tid lang jp jphtml : String),
      fileExists fs (FetchAndTranslate.transTaskPath lang cid tid) = false →
      readFile fs jp = some jphtml →
      pyStrip (llm jphtml) = "" →
      FetchAndTranslate.save_translated_task llm renderBody soupWrap fs cid tid lang jp =
        some (fs, ⟨0, 1⟩)) ∧
    (∀ (llm : String → String) (renderBody soupWrap : String → String)
      (fs : FS) (cid tid lang jp jphtml : String),
      fileExists fs (FetchEditorial.editorialPath lang cid tid) = false →
      readFile fs jp = some jphtml →
      pyStrip (llm jphtml) = "" →
      FetchEditorial.save_translated_editorial llm renderBody soupWrap fs cid tid lang jp =
        some (fs, ⟨0, 1⟩)) ∧
    (∀ (fetch llm : String → String) (renderBody : String → Option String)
      (fs : FS) (contest : String) (t u : Nat) (jphtml : String),
      readFile fs (UpdateUserEditorials.ja_save_path contest t u) = some jphtml →
      fileExists fs (UpdateUserEditorials.en_save_path contest t u) = false →
      pyStrip (llm jphtml) = "" →
      UpdateUserEditorials.process_user_editorial fetch llm renderBody fs contest t u =
        (fs, ⟨0, 1⟩)) := by
  refine ⟨?_, ?_, ?_⟩
  · intro llm renderBody soupWrap fs cid tid lang jp jphtml hout hjp hempty
    simp [FetchAndTranslate.save_translated_task, hout, hjp, hempty,
      show pyStrip "" = "" from rfl]
  · intro llm renderBody soupWrap fs cid tid lang jp jphtml hout hjp hempty
    simp [FetchEditorial.save_translated_editorial, hout, hjp, hempty,
      show pyStrip "" = "" from rfl]
  · intro fetch llm renderBody fs contest t u jphtml hjp hen hempty
    have hja : fileExists fs (UpdateUserEditorials.ja_save_path contest t u) = true := by
      simp [fileExists, hjp]
    simp [UpdateUserEditorials.process_user_editorial, hja, hen, hjp, hempty, Eff.zero,
      show pyStrip "" = "" from rfl]

/-- Witness for C2 (amended): with only the Japanese file on disk and a
whitespace-only translator answer, `save_translated_task` leaves the file
system unchanged after one LLM call. -/
theorem C2_witness :
    FetchAndTranslate.save_translated_task (fun _ => "  \n ") (fun _ => none) (fun s => s)
        [("languages/jp/problems/omc001/100.html", "<p>ja</p>")] "omc001" "100" "en"
        "languages/jp/problems/omc001/100.html" =
      some ([("languages/jp/problems/omc001/100.html", "<p>ja</p>")], ⟨0, 1⟩) :=
  C2_empty_translation_not_persisted.1 (fun _ => "  \n ") (fun _ => none) (fun s => s)
    [("languages/jp/problems/omc001/100.html", "<p>ja</p>")] "omc001" "100" "en"
    "languages/jp/problems/omc001/100.html" "<p>ja</p>" (by decide) (by decide) (by decide)

/-- C3: the claim (the storage location is injective in
(contest_id, kind, item_id[, sub_id]), so two user editorials by the same
user for two different tasks of one contest are two distinct fragments) is
right and the code is wrong: both `update_user_editorials.py` (whose own
comment says the save path is `task_id/user_id.html` "to prevent
collisions") and `code.py` store a user editorial at
`.../{contest}/user_editorial/{user_id}.html`, ignoring the task id — the
same user's editorials for tasks 100 and 101 of `omc001` land on one path. -/
theorem C3_user_editorial_path_collision :
    UpdateUserEditorials.ja_save_path "omc001" 100 42 =
        UpdateUserEditorials.ja_save_path "omc001" 101 42 ∧
      UpdateUserEditorials.en_save_path "omc001" 100 42 =
        UpdateUserEditorials.en_save_path "omc001" 101 42 ∧
      CodePy.ja_file "omc001" "100" "42" = CodePy.ja_file "omc001" "101" "42" ∧
      CodePy.en_file "omc001" "100" "42" = CodePy.en_file "omc001" "101" "42" ∧
      (100 : Nat) ≠ 101 := by
  refine ⟨rfl, rfl, rfl, rfl, by decide⟩

/-- C6: the user-editorial listing excludes anchors whose link text
contains the official-editorial marker `公式解説`: a marked anchor
contributes nothing to the result (in both `code.py` and
`update_user_editorial.py`), and on a listing with one marked and one
unmarked anchor the result is exactly the unmarked item's id pair. -/
theorem C6_official_marker_excluded :
    (∀ (a : String × String) (anchors : List (String × String)),
      pyInStr "公式解説" a.1 →
      CodePy.list_user_editorial_links (a :: anchors) =
        CodePy.list_user_editorial_links anchors) ∧
    (∀ (contest : String) (a : String × String) (anchors : List (String × String)),
      pyInStr "公式解説" a.1 →
      UpdateUserEditorial.list_user_editorial_links contest (a :: anchors) =
        UpdateUserEditorial.list_user_editorial_links contest anchors) ∧
    CodePy.list_user_editorial_links
        [("公式解説 by writer", "/contests/omc001/editorial/100/7"),
         ("ユーザー解説 by alice", "/contests/omc001/editorial/101/42")] = [("101", "42")] ∧
    UpdateUserEditorial.list_user_editorial_links "omc001"
        [("公式解説 by writer", "/contests/omc001/editorial/100/7"),
         ("ユーザー解説 by alice", "/contests/omc001/editorial/101/42")] = [("101", "42")] := by
  refine ⟨?_, ?_, by decide, by decide⟩
  · intro a anchors h
    simp [CodePy.list_user_editorial_links, pyInStrB, h]
  · intro contest a anchors h
    simp [UpdateUserEditorial.list_user_editorial_links, pyInStrB, h]

/-- Witness for C6: dropping the concretely-marked official anchor does not
change the listing result. -/
theorem C6_witness :
    CodePy.list_user_editorial_links
        [("公式解説 by writer", "/contests/omc001/editorial/100/7"),
         ("ユーザー解説 by alice", "/contests/omc001/editorial/101/42")] =
      CodePy.list_user_editorial_links
        [("ユーザー解説 by alice", "/contests/omc001/editorial/101/42")] :=
  C6_official_marker_excluded.1 ("公式解説 by writer", "/contests/omc001/editorial/100/7")
    [("ユーザー解説 by alice", "/contests/omc001/editorial/101/42")] (by decide)

/-- C5 counterexample: `git_add_and_push` in `update_user_editorials.py`
(src lines 244-253) runs every git step with `check=True` and no
`try`/`except`: with an exit-code oracle under which `git push` fails (and
everything else succeeds), the call raises `CalledProcessError`
(`Except.error`) — the failure aborts the run instead of being logged as a
warning, refuting "for every publish invocation ... a failure of any git
step ... does not abort the run". -/
theorem C5_counterexample :
    (UpdateUserEditorials.git_add_and_push
        (fun cmd =>
          if cmd = ["git", "diff", "--cached", "--quiet"] ∨ cmd = ["git", "push", "origin", "HEAD:main"]
          then 1 else 0)
        "Add user editorials for omc001").isOk = false := by
  decide

/-- C5 (amended): `git_sync` in `orchestrate_daily.py` stages all pending
changes, commits iff the staged diff probe reports a difference, then pulls
with rebase and pushes, and catches every `CalledProcessError` — it always
returns (with the trace of the commands it ran), whether or not its body
failed.  `git_add_and_push` in `update_user_editorials.py` has the same
stage/commit-iff/pull/push structure, but runs unguarded: when all its
earlier steps succeed and the final `git push` fails, the
`CalledProcessError` escapes and aborts the run. -/
theorem C5_publish_commit_iff_diff :
    (∀ (rc : List String → Int) (msg : String),
      rc ["git", "config", "user.name", "github-actions[bot]"] = 0 →
      rc ["git", "config", "user.email", "github-actions[bot]@users.noreply.github.com"] = 0 →
      rc ["git", "add", "-A"] = 0 →
      rc ["git", "commit", "-m", msg] = 0 →
      rc ["git", "pull", "--rebase"] = 0 →
      rc ["git", "push"] = 0 →
      OrchestrateDaily.git_sync rc msg =
        (if rc ["git", "diff", "--cached", "--quiet"] = 0 then
          [["git", "config", "user.name", "github-actions[bot]"],
           ["git", "config", "user.email", "github-actions[bot]@users.noreply.github.com"],
           ["git", "add", "-A"], ["git", "diff", "--cached", "--quiet"]]
        else
          [["git", "config", "user.name", "github-actions[bot]"],
           ["git", "config", "user.email", "github-actions[bot]@users.noreply.github.com"],
           ["git", "add", "-A"], ["git", "diff", "--cached", "--quiet"],
           ["git", "commit", "-m", msg], ["git", "pull", "--rebase"], ["git", "push"]])) ∧
    (∀ (rc : List String → Int) (msg : String),
      (∃ t, OrchestrateDaily.git_sync_body rc msg = Except.ok t ∧
          OrchestrateDaily.git_sync rc msg = t) ∨
      (∃ t, OrchestrateDaily.git_sync_body rc msg = Except.error t ∧
          OrchestrateDaily.git_sync rc msg = t)) ∧
    (∀ (rc : List String → Int) (msg : String),
      rc ["git", "config", "--local", "user.name", "github-actions[bot]"] = 0 →
      rc ["git", "config", "--local", "user.email", "github-actions[bot]@users.noreply.github.com"] = 0 →
      rc ["git", "add", "-A"] = 0 →
      rc ["git", "diff", "--cached", "--quiet"] ≠ 0 →
      rc ["git", "commit", "-m", msg] = 0 →
      rc ["git", "pull", "--rebase"] = 0 →
      rc ["git", "push", "origin", "HEAD:main"] ≠ 0 →
      ∃ t, UpdateUserEditorials.git_add_and_push rc msg = Except.error t) := by
  refine ⟨?_, ?_, ?_⟩
  · intro rc msg h1 h2 h3 hc hp hpu
    by_cases hd : rc ["git", "diff", "--cached", "--quiet"] = 0
    · simp [OrchestrateDaily.git_sync, OrchestrateDaily.git_sync_body, h1, h2, h3, hd,
        Except.bind]
    · simp [OrchestrateDaily.git_sync, OrchestrateDaily.git_sync_body, h1, h2, h3, hd, hc,
        hp, hpu, Except.bind]
  · intro rc msg
    cases hb : OrchestrateDaily.git_sync_body rc msg with
    | ok t => exact Or.inl ⟨t, rfl, by simp [OrchestrateDaily.git_sync, hb]⟩
    | error t => exact Or.inr ⟨t, rfl, by simp [OrchestrateDaily.git_sync, hb]⟩
  · intro rc msg h1 h2 h3 hd hc hp hpu
    refine ⟨[["git", "config", "--local", "user.name", "github-actions[bot]"],
      ["git", "config", "--local", "user.email", "github-actions[bot]@users.noreply.github.com"],
      ["git", "add", "-A"], ["git", "diff", "--cached", "--quiet"],
      ["git", "commit", "-m", msg], ["git", "pull", "--rebase"],
      ["git", "push", "origin", "HEAD:main"]], ?_⟩
    simp [UpdateUserEditorials.git_add_and_push, h1, h2, h3, hd, hc, hp,
      if_neg hpu, Except.bind]

/-- Witness for C5 (amended): with every git step succeeding and a
non-empty staged diff, `git_sync` runs stage, diff probe, commit, pull
with rebase, push, in that order. -/
theorem C5_witness :
    OrchestrateDaily.git_sync (fun cmd => if cmd = ["git", "diff", "--cached", "--quiet"] then 1 else 0)
        "Sync JA originals after tasks" =
      [["git", "config", "user.name", "github-actions[bot]"],
       ["git", "config", "user.email", "github-actions[bot]@users.noreply.github.com"],
       ["git", "add", "-A"], ["git", "diff", "--cached", "--quiet"],
       ["git", "commit", "-m", "Sync JA originals after tasks"],
       ["git", "pull", "--rebase"], ["git", "push"]] := by
  have h := C5_publish_commit_iff_diff.1
    (fun cmd => if cmd = ["git", "diff", "--cached", "--quiet"] then 1 else 0)
    "Sync JA originals after tasks" (by decide) (by decide) (by decide) (by decide)
    (by decide) (by decide)
  rw [h]
  decide

/-- Helper: when every candidate selector times out, the selector loop of
`extract_content_with_playwright` falls through to the `body` fallback. -/
theorem trySelectors_all_none (o : UpdateUserEditorials.PageOracle) :
    ∀ l : List String, (∀ s ∈ l, o.sel s = none) →
      UpdateUserEditorials.trySelectors o l = (o.sel "body").getD "" := by
  intro l
  induction l with
  | nil =>
    intro _
    simp only [UpdateUserEditorials.trySelectors]
    cases o.sel "body" <;> rfl
  | cons s rest ih =>
    intro h
    have hs : o.sel s = none := h s (by simp)
    simp only [UpdateUserEditorials.trySelectors, hs]
    exact ih (fun x hx => h x (by simp [hx]))

/-- C8 counterexample: with a page where none of the candidate content
selectors ever appears but the `body` element holds `<p>hi</p>`,
`extract_content_with_playwright` (src/scripts/update_user_editorials.py
lines 151-177) returns `<p>hi</p>` — non-empty content that is not any
target selector's inner markup — refuting "returns the empty string ...
when the target selector does not appear within the bounded wait". -/
theorem C8_counterexample :
    UpdateUserEditorials.extract_content_with_playwright
        ⟨false, fun s => if s = "body" then some "<p>hi</p>" else none⟩ = "<p>hi</p>" ∧
      "<p>hi</p>" ≠ "" ∧
      ∀ s ∈ UpdateUserEditorials.EDITORIAL_SELECTORS,
        (fun s => if s = "body" then some "<p>hi</p>" else none : String → Option String) s
          = none := by
  refine ⟨by decide, by decide, by decide⟩

/-- C8 (amended): `extract_div_innerhtml_with_playwright` returns the empty
string when the page load/evaluation fails or the target selector does not
appear within the bounded wait, and in every case returns either `""` or
exactly the target selector's inner markup; `extract_content_with_playwright`
returns `""` on page-load failure and never raises, but when all of its
candidate selectors are absent it falls back to the `body` element's inner
markup instead of returning the empty string. -/
theorem C8_extract_empty_on_timeout :
    (∀ (o : FetchAndTranslate.PWOracle) (div_id : String),
      (o.fails = true →
        FetchAndTranslate.extract_div_innerhtml_with_playwright o div_id = "") ∧
      (o.sel ("#" ++ div_id) = none →
        FetchAndTranslate.extract_div_innerhtml_with_playwright o div_id = "") ∧
      (FetchAndTranslate.extract_div_innerhtml_with_playwright o div_id = "" ∨
        o.sel ("#" ++ div_id) =
          some (FetchAndTranslate.extract_div_innerhtml_with_playwright o div_id))) ∧
    (∀ o : UpdateUserEditorials.PageOracle,
      (o.gotoFails = true → UpdateUserEditorials.extract_content_with_playwright o = "") ∧
      (o.gotoFails = false → (∀ s ∈ UpdateUserEditorials.EDITORIAL_SELECTORS, o.sel s = none) →
        UpdateUserEditorials.extract_content_with_playwright o = (o.sel "body").getD "")) := by
  constructor
  · intro o div_id
    refine ⟨?_, ?_, ?_⟩
    · intro h
      simp [FetchAndTranslate.extract_div_innerhtml_with_playwright, h]
    · intro h
      simp [FetchAndTranslate.extract_div_innerhtml_with_playwright, h]
    · by_cases hf : o.fails
      · exact Or.inl (by simp [FetchAndTranslate.extract_div_innerhtml_with_playwright, hf])
      · cases hs : o.sel ("#" ++ div_id) with
        | none =>
          exact Or.inl (by
            simp [FetchAndTranslate.extract_div_innerhtml_with_playwright, hf, hs])
        | some v =>
          exact Or.inr (by
            simp [FetchAndTranslate.extract_div_innerhtml_with_playwright, hf, hs])
  · intro o
    constructor
    · intro h
      simp [UpdateUserEditorials.extract_content_with_playwright, h]
    · intro hg hall
      simp only [UpdateUserEditorials.extract_content_with_playwright, hg, Bool.false_eq_true,
        if_false]
      exact trySelectors_all_none o _ hall

/-- Witness for C8 (amended): a page load failure yields the empty string,
and a page with the target div present yields its inner markup. -/
theorem C8_witness :
    FetchAndTranslate.extract_div_innerhtml_with_playwright
        ⟨true, fun _ => some "<b>x</b>"⟩ "problem_content" = "" ∧
      UpdateUserEditorials.extract_content_with_playwright
        ⟨false, fun s => if s = "body" then some "<p>hi</p>" else none⟩ =
        ((fun s => if s = "body" then some "<p>hi</p>" else none : String → Option String)
            "body").getD "" :=
  ⟨(C8_extract_empty_on_timeout.1 ⟨true, fun _ => some "<b>x</b>"⟩ "problem_content").1 rfl,
    (C8_extract_empty_on_timeout.2
      ⟨false, fun s => if s = "body" then some "<p>hi</p>" else none⟩).2 rfl (by decide)⟩

/-- C4: invoking the pipeline script with `--contest-json` emits
`{"contest_id": str, "duration_min": int}` on standard output and performs
no fetch/translate side effects (file system untouched, zero network/LLM
calls); duration text `90分` parses to `duration_min = 90` (and the
orchestrator reads 90 back out of the emitted object), while unparseable
or missing duration text yields the 60-minute default in the orchestrator
(`orchestrate_daily.py` lines 92-97, including a stdout line that fails to
parse as JSON at all, `parsed = none`). -/
theorem C4_contest_json_mode :
    (∀ (fs : FS) (cid : String) (durText : Option String),
      FetchAndTranslate.mainContestJson fs cid durText =
        (fs, Eff.zero,
          [("contest_id", OrchestrateDaily.JVal.str cid),
           ("duration_min", OrchestrateDaily.JVal.num
              (((durText.bind FetchAndTranslate.durationMinOfText).getD 60 : Nat)))])) ∧
    FetchAndTranslate.durationMinOfText "90分" = some 90 ∧
    (∀ (fs : FS) (cid : String),
      OrchestrateDaily.duration_min_of
        (some (FetchAndTranslate.mainContestJson fs cid (some "90分")).2.2) = 90) ∧
    FetchAndTranslate.durationMinOfText "unknown" = none ∧
    FetchAndTranslate.durationMinOfText "" = none ∧
    OrchestrateDaily.duration_min_of none = 60 ∧
    (∀ (fs : FS) (cid : String),
      OrchestrateDaily.duration_min_of
        (some (FetchAndTranslate.mainContestJson fs cid none).2.2) = 60) := by
  refine ⟨fun fs cid durText => rfl, by decide, fun fs cid => rfl, by decide, by decide,
    rfl, fun fs cid => rfl⟩

/-- Helper: `render_to_final_html` writes only its file path. -/
theorem frame_render_to_final_html (renderBody : String → Option String) (fs : FS)
    (path q : String) (h : q ≠ path) :
    readFile (FetchAndTranslate.render_to_final_html renderBody fs path) q = readFile fs q := by
  unfold FetchAndTranslate.render_to_final_html
  cases hr : readFile fs path with
  | none => rfl
  | some orig =>
    cases hb : renderBody (FetchAndTranslate.headerHtml ++ orig ++ FetchAndTranslate.footerHtml) with
    | none => simp [hb, readFile_writeFile_ne _ _ _ _ h]
    | some b => simp [hb, readFile_writeFile_ne _ _ _ _ h]

/-- Helper: `wrap_display_math_center` writes only its file path. -/
theorem frame_wrap_display_math_center (soupWrap : String → String) (fs : FS)
    (path q : String) (h : q ≠ path) :
    readFile (FetchAndTranslate.wrap_display_math_center soupWrap fs path) q = readFile fs q := by
  unfold FetchAndTranslate.wrap_display_math_center
  cases hr : readFile fs path with
  | none => rfl
  | some html => simp [readFile_writeFile_ne _ _ _ _ h]

/-- Helper: the fetch_editorial `render_html_with_playwright` writes only
its file path. -/
theorem frame_render_html_fe (renderBody : String → String) (fs : FS)
    (path q : String) (h : q ≠ path) :
    readFile (FetchEditorial.render_html_with_playwright renderBody fs path) q = readFile fs q := by
  unfold FetchEditorial.render_html_with_playwright
  cases hr : readFile fs path with
  | none => rfl
  | some content => simp [readFile_writeFile_ne _ _ _ _ h]

/-- Helper: `change_editorial_display` writes only the editorial path. -/
theorem frame_change_editorial_display (soupWrap : String → String) (fs : FS)
    (cid tid lang q : String) (h : q ≠ FetchEditorial.editorialPath lang cid tid) :
    readFile (FetchEditorial.change_editorial_display soupWrap fs cid tid lang) q =
      readFile fs q := by
  unfold FetchEditorial.change_editorial_display
  dsimp only
  cases hr : readFile fs (FetchEditorial.editorialPath lang cid tid) with
  | none => simp [hr]
  | some html => simp [hr, readFile_writeFile_ne _ _ _ _ h]

/-- Helper: the update_user_editorials `render_html_with_playwright` writes
only its file path. -/
theorem frame_render_html_uue (renderBody : String → Option String) (fs : FS)
    (path q : String) (h : q ≠ path) :
    readFile (UpdateUserEditorials.render_html_with_playwright renderBody fs path) q =
      readFile fs q := by
  unfold UpdateUserEditorials.render_html_with_playwright
  cases hr : readFile fs path with
  | none => rfl
  | some content =>
    cases hb : renderBody (FetchAndTranslate.headerHtml ++ content ++ "\n</body></html>") with
    | none => simp [hb, readFile_writeFile_ne _ _ _ _ h]
    | some b => simp [hb, readFile_writeFile_ne _ _ _ _ h]

/-- Helper: the whole `save_translated_task` step writes only the target
output path. -/
theorem save_translated_task_frame (llm : String → String)
    (renderBody : String → Option String) (soupWrap : String → String) (fs : FS)
    (cid tid lang jp : String) (fs' : FS) (eff : Eff)
    (h : FetchAndTranslate.save_translated_task llm renderBody soupWrap fs cid tid lang jp =
      some (fs', eff))
    (q : String) (hq : q ≠ FetchAndTranslate.transTaskPath lang cid tid) :
    readFile fs' q = readFile fs q := by
  unfold FetchAndTranslate.save_translated_task at h
  by_cases hex : fileExists fs (FetchAndTranslate.transTaskPath lang cid tid)
  · simp [hex] at h
    rw [h.1]
  · simp only [hex, Bool.false_eq_true, if_false] at h
    cases hjp : readFile fs jp with
    | none => rw [hjp] at h; cases h
    | some jp_html =>
      rw [hjp] at h
      dsimp only at h
      by_cases hemp : pyStrip (pyStrip (llm jp_html)) = ""
      · rw [if_pos hemp] at h
        cases h
        rfl
      · rw [if_neg hemp] at h
        cases h
        rw [frame_wrap_display_math_center _ _ _ _ hq,
          frame_render_to_final_html _ _ _ _ hq,
          readFile_writeFile_ne _ _ _ _ hq]

/-- Helper: the whole `save_translated_editorial` step writes only the
target output path. -/
theorem save_translated_editorial_frame (llm renderBody soupWrap : String → String)
    (fs : FS) (cid tid lang jp : String) (fs' : FS) (eff : Eff)
    (h : FetchEditorial.save_translated_editorial llm renderBody soupWrap fs cid tid lang jp =
      some (fs', eff))
    (q : String) (hq : q ≠ FetchEditorial.editorialPath lang cid tid) :
    readFile fs' q = readFile fs q := by
  unfold FetchEditorial.save_translated_editorial at h
  by_cases hex : fileExists fs (FetchEditorial.editorialPath lang cid tid)
  · simp [hex] at h
    rw [h.1]
  · simp only [hex, Bool.false_eq_true, if_false] at h
    cases hjp : readFile fs jp with
    | none => rw [hjp] at h; cases h
    | some jp_html =>
      rw [hjp] at h
      dsimp only at h
      by_cases hemp : pyStrip (pyStrip (llm jp_html)) = ""
      · rw [if_pos hemp] at h
        cases h
        rfl
      · rw [if_neg hemp] at h
        cases h
        rw [frame_change_editorial_display _ _ _ _ _ _ hq,
          frame_render_html_fe _ _ _ _ hq,
          readFile_writeFile_ne _ _ _ _ hq]

/-- Helper: with the Japanese file already cached, `process_user_editorial`
writes only the English output path. -/
theorem process_user_editorial_frame (fetch llm : String → String)
    (renderBody : String → Option String) (fs : FS) (contest : String) (t u : Nat)
    (hja : fileExists fs (UpdateUserEditorials.ja_save_path contest t u) = true)
    (q : String) (hq : q ≠ UpdateUserEditorials.en_save_path contest t u) :
    readFile (UpdateUserEditorials.process_user_editorial fetch llm renderBody fs contest t u).1 q =
      readFile fs q := by
  unfold UpdateUserEditorials.process_user_editorial
  simp only [hja, if_true]
  by_cases hen : fileExists fs (UpdateUserEditorials.en_save_path contest t u)
  · simp [hen]
  · simp only [hen, Bool.false_eq_true, if_false]
    cases hr : readFile fs (UpdateUserEditorials.ja_save_path contest t u) with
    | none => simp [hr]
    | some jp_html =>
      simp only [hr]
      by_cases hemp : pyStrip (pyStrip (llm jp_html)) = ""
      · rw [if_pos hemp]
      · rw [if_neg hemp]
        dsimp only
        rw [frame_render_html_uue _ _ _ _ hq, readFile_writeFile_ne _ _ _ _ hq]

/-- C10: translating and rendering a target-language fragment never
modifies the source-language fragment: each `save_translated_*` step
(including its KaTeX re-render and display-wrap post-passes) writes only
the target-language output path — every other path, in particular the
Japanese source file it read from, is byte-identical before and after the
step.  For the user-editorial step the same holds once the Japanese copy is
cached. -/
theorem C10_translate_preserves_source :
    (∀ (llm : String → String) (renderBody : String → Option String)
      (soupWrap : String → String) (fs : FS) (cid tid lang jp : String) (fs' : FS) (eff : Eff),
      FetchAndTranslate.save_translated_task llm renderBody soupWrap fs cid tid lang jp =
        some (fs', eff) →
      (∀ q, q ≠ FetchAndTranslate.transTaskPath lang cid tid → readFile fs' q = readFile fs q) ∧
        readFile fs' jp = readFile fs jp) ∧
    (∀ (llm renderBody soupWrap : String → String) (fs : FS) (cid tid lang jp : String)
      (fs' : FS) (eff : Eff),
      FetchEditorial.save_translated_editorial llm renderBody soupWrap fs cid tid lang jp =
        some (fs', eff) →
      (∀ q, q ≠ FetchEditorial.editorialPath lang cid tid → readFile fs' q = readFile fs q) ∧
        readFile fs' jp = readFile fs jp) ∧
    (∀ (fetch llm : String → String) (renderBody : String → Option String) (fs : FS)
      (contest : String) (t u : Nat),
      fileExists fs (UpdateUserEditorials.ja_save_path contest t u) = true →
      (∀ q, q ≠ UpdateUserEditorials.en_save_path contest t u →
        readFile (UpdateUserEditorials.process_user_editorial fetch llm renderBody
          fs contest t u).1 q = readFile fs q) ∧
        readFile (UpdateUserEditorials.process_user_editorial fetch llm renderBody
            fs contest t u).1 (UpdateUserEditorials.ja_save_path contest t u) =
          readFile fs (UpdateUserEditorials.ja_save_path contest t u)) := by
  refine ⟨?_, ?_, ?_⟩
  · intro llm renderBody soupWrap fs cid tid lang jp fs' eff h
    refine ⟨fun q hq => save_translated_task_frame llm renderBody soupWrap fs cid tid lang jp
      fs' eff h q hq, ?_⟩
    by_cases hq : jp = FetchAndTranslate.transTaskPath lang cid tid
    · by_cases hex : fileExists fs (FetchAndTranslate.transTaskPath lang cid tid)
      · unfold FetchAndTranslate.save_translated_task at h
        simp [hex] at h
        rw [h.1]
      · exfalso
        unfold FetchAndTranslate.save_translated_task at h
        have hjpn : readFile fs jp = none := by
          rw [hq]
          rw [fileExists] at hex
          exact Option.not_isSome_iff_eq_none.mp (by simpa using hex)
        simp [hex, hjpn] at h
    · exact save_translated_task_frame llm renderBody soupWrap fs cid tid lang jp fs' eff h
        jp hq
  · intro llm renderBody soupWrap fs cid tid lang jp fs' eff h
    refine ⟨fun q hq => save_translated_editorial_frame llm renderBody soupWrap fs cid tid lang
      jp fs' eff h q hq, ?_⟩
    by_cases hq : jp = FetchEditorial.editorialPath lang cid tid
    · by_cases hex : fileExists fs (FetchEditorial.editorialPath lang cid tid)
      · unfold FetchEditorial.save_translated_editorial at h
        simp [hex] at h
        rw [h.1]
      · exfalso
        unfold FetchEditorial.save_translated_editorial at h
        have hjpn : readFile fs jp = none := by
          rw [hq]
          rw [fileExists] at hex
          exact Option.not_isSome_iff_eq_none.mp (by simpa using hex)
        simp [hex, hjpn] at h
    · exact save_translated_editorial_frame llm renderBody soupWrap fs cid tid lang jp fs' eff
        h jp hq
  · intro fetch llm renderBody fs contest t u hja
    refine ⟨fun q hq => process_user_editorial_frame fetch llm renderBody fs contest t u hja
      q hq, ?_⟩
    by_cases hq : UpdateUserEditorials.ja_save_path contest t u =
        UpdateUserEditorials.en_save_path contest t u
    · have hen : fileExists fs (UpdateUserEditorials.en_save_path contest t u) = true := by
        rw [← hq]; exact hja
      have hid : UpdateUserEditorials.process_user_editorial fetch llm renderBody fs contest
          t u = (fs, Eff.zero) := by
        simp [UpdateUserEditorials.process_user_editorial, hja, hen, Eff.zero]
      rw [hid]
    · exact process_user_editorial_frame fetch llm renderBody fs contest t u hja _ hq

/-- Witness for C10: a concrete translation run over a one-file cache — the
Japanese source read from disk is byte-identical afterwards. -/
theorem C10_witness :
    readFile (((FetchAndTranslate.save_translated_task (fun _ => "T") (fun _ => some "B")
          (fun s => s) [("languages/jp/problems/omc001/100.html", "<p>ja</p>")]
          "omc001" "100" "en" "languages/jp/problems/omc001/100.html").getD
        ([], Eff.zero)).1) "languages/jp/problems/omc001/100.html" = some "<p>ja</p>" := by
  have h := (C10_translate_preserves_source.1 (fun _ => "T") (fun _ => some "B") (fun s => s)
    [("languages/jp/problems/omc001/100.html", "<p>ja</p>")] "omc001" "100" "en"
    "languages/jp/problems/omc001/100.html"
    ((FetchAndTranslate.save_translated_task (fun _ => "T") (fun _ => some "B")
        (fun s => s) [("languages/jp/problems/omc001/100.html", "<p>ja</p>")]
        "omc001" "100" "en" "languages/jp/problems/omc001/100.html").getD
      ([], Eff.zero)).1
    ((FetchAndTranslate.save_translated_task (fun _ => "T") (fun _ => some "B")
        (fun s => s) [("languages/jp/problems/omc001/100.html", "<p>ja</p>")]
        "omc001" "100" "en" "languages/jp/problems/omc001/100.html").getD
      ([], Eff.zero)).2 rfl).2
  exact h.trans rfl

/-- Helper: the forward math transform maps over sibling lists
homomorphically with respect to append. -/
theorem replaceKatexL_append (b : Bool) (l1 l2 : List MathNormalizer.Node) :
    MathNormalizer.replaceKatexL b (l1 ++ l2) =
      MathNormalizer.replaceKatexL b l1 ++ MathNormalizer.replaceKatexL b l2 := by
  induction l1 with
  | nil => rfl
  | cons n ns ih => simp [MathNormalizer.replaceKatexL, ih]

/-- Helper: fragment serialization is append-homomorphic. -/
theorem serializeL_append (l1 l2 : List MathNormalizer.Node) :
    MathNormalizer.serializeL (l1 ++ l2) =
      MathNormalizer.serializeL l1 ++ MathNormalizer.serializeL l2 := by
  induction l1 with
  | nil => simp [MathNormalizer.serializeL]
  | cons n ns ih => simp [MathNormalizer.serializeL, ih, String.append_assoc]

mutual
/-- Helper: on a node with no replaceable math anywhere inside, the forward
transform is the identity. -/
theorem replaceKatexN_id (b : Bool) :
    (n : MathNormalizer.Node) → MathNormalizer.noKatexN n = true →
      MathNormalizer.replaceKatexN b n = n
  | .text s, _ => rfl
  | .elem tag attrs cs, h => by
    have h' : (!(MathNormalizer.hasClassTok attrs "katex" &&
        (MathNormalizer.findTexL cs).isSome) && MathNormalizer.noKatexL cs) = true := h
    rw [Bool.and_eq_true] at h'
    obtain ⟨h1, h2⟩ := h'
    cases hf : MathNormalizer.findTexL cs with
    | none =>
      simp only [MathNormalizer.replaceKatexN, hf]
      rw [replaceKatexL_id b cs h2]
    | some tex =>
      have hcl : MathNormalizer.hasClassTok attrs "katex" = false := by
        rw [hf] at h1
        simpa using h1
      simp only [MathNormalizer.replaceKatexN, hf, hcl, Bool.false_eq_true, if_false]
      rw [replaceKatexL_id b cs h2]
/-- Helper: list version of `replaceKatexN_id`. -/
theorem replaceKatexL_id (b : Bool) :
    (l : List MathNormalizer.Node) → MathNormalizer.noKatexL l = true →
      MathNormalizer.replaceKatexL b l = l
  | [], _ => rfl
  | n :: ns, h => by
    have h' : (MathNormalizer.noKatexN n && MathNormalizer.noKatexL ns) = true := h
    rw [Bool.and_eq_true] at h'
    obtain ⟨h1, h2⟩ := h'
    simp only [MathNormalizer.replaceKatexL]
    rw [replaceKatexN_id b n h1, replaceKatexL_id b ns h2]
end

/-- Helper: splitting on a separator that does not occur returns the list
whole. -/
theorem splitChar_not_mem (sep : Char) :
    (l : List Char) → sep ∉ l → splitChar sep l = [l]
  | [], _ => rfl
  | c :: cs, h => by
    have hc : c ≠ sep := fun hEq => h (by simp [hEq])
    have ih := splitChar_not_mem sep cs (fun hm => h (by simp [hm]))
    simp only [splitChar, ih, if_neg hc]

/-- Helper: splitting `l ++ sep :: r` when `sep ∉ l` yields `l` and the
split of `r`. -/
theorem splitChar_append_sep (sep : Char) :
    (l r : List Char) → sep ∉ l →
      splitChar sep (l ++ sep :: r) = l :: splitChar sep r
  | [], r, _ => by
    cases hr : splitChar sep r with
    | nil => simp [splitChar, hr]
    | cons h t => simp [splitChar, hr]
  | c :: cs, r, h => by
    have hc : c ≠ sep := fun hEq => h (by simp [hEq])
    have ih := splitChar_append_sep sep cs r (fun hm => h (by simp [hm]))
    simp only [List.cons_append, splitChar, List.append_eq, ih, if_neg hc]

/-- Helper: rendering a placeholder string whose sides are free of `$`
produces a rendered math node for the delimited middle `x^2+1`. -/
theorem render_dollar_middle (s1 s2 : String) (hs1 : '$' ∉ s1.data) (hs2 : '$' ∉ s2.data) :
    MathNormalizer.containsTexL "x^2+1" (MathNormalizer.render (s1 ++ "$x^2+1$" ++ s2)) =
      true := by
  unfold MathNormalizer.render
  have h1 : (s1 ++ "$x^2+1$" ++ s2).data =
      s1.data ++ '$' :: ("x^2+1".data ++ '$' :: s2.data) := by
    simp [String.data_append]
  rw [h1, splitChar_append_sep _ _ _ hs1, splitChar_append_sep _ _ _ (by decide),
    splitChar_not_mem _ _ hs2]
  have hK : MathNormalizer.containsTexN "x^2+1"
      (MathNormalizer.katexRendered ⟨"x^2+1".data⟩) = true := by decide
  simp [MathNormalizer.renderSegs, MathNormalizer.containsTexL,
    MathNormalizer.containsTexN, hK]
  decide

/-- Helper: serializing the placeholder transform of a fragment holding a
`katex` node with source trimming to `x^2+1` gives the two serialized
contexts around the literal `$x^2+1$`. -/
theorem htmlKatex_serialize_shape (pre post : List MathNormalizer.Node) (tag : String)
    (attrs : List (String × String)) (cs : List MathNormalizer.Node) (tex : String)
    (h1 : MathNormalizer.hasClassTok attrs "katex" = true)
    (h2 : MathNormalizer.findTexL cs = some tex) (h3 : pyStrip tex = "x^2+1") :
    MathNormalizer.serializeL
        (MathNormalizer.HtmlKatex (pre ++ .elem tag attrs cs :: post)) =
      MathNormalizer.serializeL (MathNormalizer.HtmlKatex pre) ++ "$x^2+1$" ++
        MathNormalizer.serializeL (MathNormalizer.HtmlKatex post) := by
  unfold MathNormalizer.HtmlKatex
  have eK : MathNormalizer.replaceKatexN true (.elem tag attrs cs) =
      .text ("$" ++ pyStrip tex ++ "$") := by
    simp [MathNormalizer.replaceKatexN, h2, h1]
  have e1 : MathNormalizer.replaceKatexL true (pre ++ .elem tag attrs cs :: post) =
      MathNormalizer.replaceKatexL true pre ++
        .text ("$" ++ pyStrip tex ++ "$") :: MathNormalizer.replaceKatexL true post := by
    rw [replaceKatexL_append]
    simp [MathNormalizer.replaceKatexL, eK]
  rw [e1, h3, serializeL_append]
  have e2 : MathNormalizer.serializeL
      (.text ("$" ++ "x^2+1" ++ "$") :: MathNormalizer.replaceKatexL true post) =
      MathNormalizer.escapeHtml ("$" ++ "x^2+1" ++ "$") ++
        MathNormalizer.serializeL (MathNormalizer.replaceKatexL true post) := rfl
  rw [e2, show MathNormalizer.escapeHtml ("$" ++ "x^2+1" ++ "$") = "$x^2+1$" by decide,
    String.append_assoc]

/-- C7: the forward math transform replaces every rendered-math node
carrying a TeX source with the literal text `$<source>$` and leaves
math-free parts of the fragment unchanged; for every fragment holding a
math node with source `x^2+1` (not nested in another rendered-math node,
so the transform reaches it), the serialized result contains the literal
substring `$x^2+1$`; and feeding that result through `render` (modelled
from the spec, with `$`-free surrounding contexts so the delimiters pair
up) yields a rendered math node whose source content equals `x^2+1`. -/
theorem C7_math_placeholder_roundtrip :
    (∀ (tag : String) (attrs : List (String × String)) (cs : List MathNormalizer.Node)
      (tex : String),
      MathNormalizer.hasClassTok attrs "katex" = true →
      MathNormalizer.findTexL cs = some tex →
      MathNormalizer.replaceKatexN true (.elem tag attrs cs) =
        .text ("$" ++ pyStrip tex ++ "$")) ∧
    (∀ n : MathNormalizer.Node, MathNormalizer.noKatexN n = true →
      MathNormalizer.replaceKatexN true n = n) ∧
    (∀ (pre post : List MathNormalizer.Node) (tag : String)
      (attrs : List (String × String)) (cs : List MathNormalizer.Node) (tex : String),
      MathNormalizer.hasClassTok attrs "katex" = true →
      MathNormalizer.findTexL cs = some tex → pyStrip tex = "x^2+1" →
      pyInStr "$x^2+1$"
        (MathNormalizer.serializeL
          (MathNormalizer.HtmlKatex (pre ++ .elem tag attrs cs :: post)))) ∧
    (∀ (pre post : List MathNormalizer.Node) (tag : String)
      (attrs : List (String × String)) (cs : List MathNormalizer.Node) (tex : String),
      MathNormalizer.hasClassTok attrs "katex" = true →
      MathNormalizer.findTexL cs = some tex → pyStrip tex = "x^2+1" →
      '$' ∉ (MathNormalizer.serializeL (MathNormalizer.HtmlKatex pre)).data →
      '$' ∉ (MathNormalizer.serializeL (MathNormalizer.HtmlKatex post)).data →
      MathNormalizer.containsTexL "x^2+1"
        (MathNormalizer.render
          (MathNormalizer.serializeL
            (MathNormalizer.HtmlKatex (pre ++ .elem tag attrs cs :: post)))) = true) := by
  refine ⟨?_, ?_, ?_, ?_⟩
  · intro tag attrs cs tex h1 h2
    simp [MathNormalizer.replaceKatexN, h2, h1]
  · intro n h
    exact replaceKatexN_id true n h
  · intro pre post tag attrs cs tex h1 h2 h3
    rw [htmlKatex_serialize_shape pre post tag attrs cs tex h1 h2 h3]
    unfold pyInStr
    refine ⟨(MathNormalizer.serializeL (MathNormalizer.HtmlKatex pre)).data,
      (MathNormalizer.serializeL (MathNormalizer.HtmlKatex post)).data, ?_⟩
    simp [String.data_append]
  · intro pre post tag attrs cs tex h1 h2 h3 hpre hpost
    rw [htmlKatex_serialize_shape pre post tag attrs cs tex h1 h2 h3]
    exact render_dollar_middle _ _ hpre hpost

/-- Witness for C7: the fragment `Let <span class="katex">…x^2+1…</span>
hold.`; its placeholder form serializes with the literal `$x^2+1$`, and
rendering that string yields a rendered math node with source `x^2+1`. -/
theorem C7_witness :
    MathNormalizer.containsTexL "x^2+1"
      (MathNormalizer.render
        (MathNormalizer.serializeL
          (MathNormalizer.HtmlKatex
            ([MathNormalizer.Node.text "Let "] ++
              MathNormalizer.Node.elem "span" [("class", "katex")]
                [MathNormalizer.Node.elem "semantics" []
                  [MathNormalizer.Node.elem "annotation"
                    [("encoding", "application/x-tex")]
                    [MathNormalizer.Node.text "x^2+1"]]] ::
                [MathNormalizer.Node.text " hold."])))) = true :=
  C7_math_placeholder_roundtrip.2.2.2 [MathNormalizer.Node.text "Let "]
    [MathNormalizer.Node.text " hold."] "span" [("class", "katex")]
    [MathNormalizer.Node.elem "semantics" []
      [MathNormalizer.Node.elem "annotation" [("encoding", "application/x-tex")]
        [MathNormalizer.Node.text "x^2+1"]]] "x^2+1" (by decide) (by decide) (by decide)
    (by decide) (by decide)
